import Mathlib

/-!
Verification development for the mcp-memory-system repository.

The Python sources (config.py, extractors.py, memory_db.py) are shallowly
embedded below.  Strings are modelled as Lean `String` / `List Char`
(Python `len` counts code points, as does `List.length` on `.data`);
the SQLite `memory_items` table is modelled as a list of records plus an
AUTOINCREMENT counter; `CURRENT_TIMESTAMP` and `datetime.now()` are passed
in as explicit parameters; exceptions are modelled with an error type, and
a transaction that raises rolls back, so a failing operation returns the
original store unchanged.
-/

set_option maxRecDepth 20000

namespace MCPMemory

/-! ### Basic string machinery (Python substring, lower, strip, split, regex) -/

/-- `startsWithL s p` : does list `s` start with list `p`. -/
def startsWithL : List Char → List Char → Bool
  | _, [] => true
  | [], _ :: _ => false
  | a :: s, b :: p => a == b && startsWithL s p

/-- `hasSubstr s p` : Python `p in s` (contiguous substring test). -/
def hasSubstr : List Char → List Char → Bool
  | [], p => startsWithL [] p
  | a :: s, p => startsWithL (a :: s) p || hasSubstr s p

/-- Python `str.lower()`.  The repository's keyword tables mix Japanese
text (unaffected by lowering) with ASCII; `Char.toLower` covers the ASCII
range used by the sources. -/
def lowerStr (s : List Char) : List Char := s.map Char.toLower

/-- ASCII whitespace stripped by Python `str.strip()` on the inputs that occur
in this repository. -/
def isSpaceChar (c : Char) : Bool := c == ' ' || c == '\n' || c == '\t' || c == '\r'

/-- Python `str.strip()`. -/
def stripL (s : List Char) : List Char :=
  ((s.dropWhile isSpaceChar).reverse.dropWhile isSpaceChar).reverse

/-- Helper for `splitOnChar`; `cur` is the current chunk, reversed. -/
def splitOnCharAux (sep : Char) : List Char → List Char → List (List Char)
  | [], cur => [cur.reverse]
  | c :: rest, cur =>
    if c == sep then cur.reverse :: splitOnCharAux sep rest []
    else splitOnCharAux sep rest (c :: cur)

/-- Python `str.split(sep)` for a single-character separator
(keeps empty chunks, returns one chunk for the empty string). -/
def splitOnChar (sep : Char) (s : List Char) : List (List Char) :=
  splitOnCharAux sep s []

/-- Character class `[A-Za-z0-9_]` of the token regex in memory_db.py. -/
def isWordChar (c : Char) : Bool :=
  ('A' ≤ c && c ≤ 'Z') || ('a' ≤ c && c ≤ 'z') || ('0' ≤ c && c ≤ '9') || c == '_'

/-- Helper for `alnumTokens`; `cur` is the current token, reversed. -/
def alnumTokensAux : List Char → List Char → List (List Char)
  | [], cur => if cur.isEmpty then [] else [cur.reverse]
  | c :: rest, cur =>
    if isWordChar c then alnumTokensAux rest (c :: cur)
    else if cur.isEmpty then alnumTokensAux rest []
    else cur.reverse :: alnumTokensAux rest []

/-- Python `re.findall(r"[A-Za-z0-9_]+", text)`: the maximal runs of word
characters. -/
def alnumTokens (s : List Char) : List (List Char) := alnumTokensAux s []

/-- Python `re.search(r'\d+|[A-Z][a-z]+', s)` is a match iff `s` contains a
digit or an upper-case ASCII letter immediately followed by a lower-case one
(`\d` is modelled on the ASCII digits, the only digits the repository's rule
tables and tests use). -/
def concreteSearch : List Char → Bool
  | [] => false
  | [c] => c.isDigit
  | c :: d :: rest =>
    c.isDigit || (c.isUpper && d.isLower) || concreteSearch (d :: rest)

/-! ### config.py -/

/-- config.MAX_AUTO_SUGGESTIONS -/
def MAX_AUTO_SUGGESTIONS : Nat := 5

/-- config.KEYWORD_MAP_CONSTITUTION, in source (insertion) order. -/
def KEYWORD_MAP_CONSTITUTION : List (String × List String) :=
  [("architecture_overview", ["アーキテクチャ", "全体構成", "構成", "レイヤ", "三層", "モノリス", "マイクロサービス"]),
   ("component_responsibility", ["責務", "役割", "分担", "境界", "コンポーネント", "サービス分割"]),
   ("data_flow_overview", ["データフロー", "処理フロー", "同期", "非同期", "イベント", "キュー"]),
   ("integration_overview", ["連携", "外部API", "Webhook", "バッチ連携", "ETL"]),
   ("security_baseline", ["セキュリティ", "最小権限", "暗号化", "TLS", "監査", "コンプライアンス"]),
   ("availability_slo", ["可用性", "冗長化", "HA", "SLO", "SLA", "RTO", "RPO", "DR"]),
   ("scalability_strategy", ["スケール", "水平", "垂直", "オートスケール", "負荷分散"]),
   ("observability_strategy", ["可観測性", "監視", "ログ", "メトリクス", "トレース", "APM", "相関ID"]),
   ("data_retention_policy", ["保持", "retention", "保存期間", "年数"]),
   ("release_governance", ["リリース", "変更管理", "レビュー", "承認", "ロールバック", "段階リリース"])]

/-- config.KEYWORD_MAP_OPERATION, in source (insertion) order. -/
def KEYWORD_MAP_OPERATION : List (String × List String) :=
  [("os_baseline", ["OS", "Linux", "Windows", "パッチ", "アップデート", "EOL", "LTS"]),
   ("server_sizing_policy", ["サーバ", "スペック", "CPU", "vCPU", "メモリ", "RAM", "ディスク", "サイジング"]),
   ("storage_layout_policy", ["パーティション", "LVM", "RAID", "マウント", "IOPS", "暗号化ディスク"]),
   ("capacity_management", ["容量管理", "使用率", "逼迫", "閾値", "増設", "リサイズ"]),
   ("virtualization_platform", ["仮想化", "VM", "ハイパーバイザ", "コンテナ", "Docker", "Kubernetes"]),
   ("network_topology", ["ネットワーク", "VPC", "サブネット", "セグメント", "NAT", "プロキシ"]),
   ("port_and_protocol_policy", ["ポート", "protocol", "TCP", "UDP", "公開", "内部通信", "mTLS", "443", "80"]),
   ("dns_and_routing_policy", ["DNS", "名前解決", "FQDN", "CNAME", "ルート", "route"]),
   ("load_balancing_policy", ["ロードバランサ", "LB", "負荷分散", "L7", "L4", "ヘルスチェック"]),
   ("firewall_policy", ["ファイアウォール", "FW", "WAF", "ACL", "allow", "deny", "ホワイトリスト"]),
   ("access_control_policy", ["アクセス制御", "踏み台", "bastion", "管理経路", "IP制限"]),
   ("backup_and_restore_procedure", ["バックアップ", "リストア", "復元", "スナップショット", "復旧訓練"]),
   ("authentication_method", ["認証", "authentication", "SSO", "OIDC", "SAML", "MFA"]),
   ("authorization_model", ["認可", "authorization", "権限", "RBAC", "ABAC", "ロール"]),
   ("secret_management", ["シークレット", "secret", "APIキー", "鍵", "KMS", "Vault", "ローテーション"]),
   ("certificate_policy", ["証明書", "certificate", "TLS", "mTLS", "CA", "期限", "更新"]),
   ("configuration_management", ["設定", "config", "環境変数", ".env", "設定ファイル", "パラメータ"]),
   ("api_contract_policy", ["API", "契約", "OpenAPI", "スキーマ", "バージョン", "互換性"]),
   ("timeout_and_retry_policy", ["タイムアウト", "timeout", "リトライ", "retry", "バックオフ"]),
   ("rate_limit_policy", ["レート制限", "rate limit", "スロットリング", "429", "クォータ"]),
   ("error_handling_policy", ["エラー処理", "例外", "exception", "失敗時", "フォールバック"]),
   ("logging_policy", ["ログ", "ログレベル", "相関ID", "PII", "マスキング", "監査ログ"]),
   ("database_schema_policy", ["スキーマ", "テーブル", "DDL", "主キー", "外部キー", "マイグレーション"]),
   ("indexing_strategy", ["インデックス", "index", "実行計画", "チューニング"]),
   ("transaction_policy", ["トランザクション", "ACID", "分離レベル", "ロック", "SAGA"]),
   ("data_archival_procedure", ["削除", "アーカイブ", "ジョブ", "手順"]),
   ("test_strategy", ["テスト", "単体", "結合", "E2E", "回帰", "負荷試験"]),
   ("ci_cd_pipeline_policy", ["CI", "CD", "パイプライン", "ビルド", "自動化", "署名"]),
   ("deployment_procedure", ["デプロイ", "Blue/Green", "カナリア", "ローリング", "ロールバック"]),
   ("monitoring_and_alerting_rules", ["監視", "メトリクス", "アラート", "閾値", "ダッシュボード"]),
   ("incident_response_runbook", ["障害", "インシデント", "一次対応", "エスカレーション", "ポストモーテム"])]

/-- The keyword set of type decision in config.TYPE_KEYWORDS. -/
def decision_keywords : List String :=
  ["決定", "判断", "選択", "採用", "廃止", "に統一", "を使用"]

/-- The keyword set of type config in config.TYPE_KEYWORDS. -/
def config_keywords : List String :=
  ["設定", "パラメータ", "値", "configure", "タイムアウト", "ポート"]

/-- The keyword set of type procedure in config.TYPE_KEYWORDS. -/
def procedure_keywords : List String :=
  ["手順", "プロセス", "フロー", "やり方", "実施", "実行"]

/-- The keyword set of type design_note in config.TYPE_KEYWORDS. -/
def design_note_keywords : List String :=
  ["原則", "方針", "哲学", "考え方", "禁止", "必ず"]

/-- config.TYPE_KEYWORDS, in source (insertion) order:
decision, config, procedure, design_note. -/
def TYPE_KEYWORDS : List (String × List String) :=
  [("decision", decision_keywords), ("config", config_keywords),
   ("procedure", procedure_keywords), ("design_note", design_note_keywords)]

/-- config.generate_key_by_map: first scans the constitution map, then the
operation map, in table order; returns the first key one of whose patterns
is a case-insensitive substring of `title + " " + content`. -/
def generate_key_by_map (title content : String) : Option (String × String) :=
  let text := lowerStr (title ++ " " ++ content).data
  match KEYWORD_MAP_CONSTITUTION.find?
      (fun kp => kp.2.any (fun p => hasSubstr text (lowerStr p.data))) with
  | some kp => some (kp.1, "constitution")
  | none =>
    match KEYWORD_MAP_OPERATION.find?
        (fun kp => kp.2.any (fun p => hasSubstr text (lowerStr p.data))) with
    | some kp => some (kp.1, "operation")
    | none => none

/-- The decisive-phrasing markers of config.judge_confidence. -/
def decisive_patterns : List String := ["に統一", "を使用", "必ず", "禁止", "してはならない"]

/-- `has_decisive` of config.judge_confidence: some decisive pattern occurs in
the lowercased `title + " " + content`. -/
def has_decisive (title content : String) : Bool :=
  decisive_patterns.any (fun p => hasSubstr (lowerStr (title ++ " " ++ content).data) p.data)

/-- `has_concrete` of config.judge_confidence:
`re.search(r'\d+|[A-Z][a-z]+', title + content)` (note: no space between the
two arguments, and no lowering). -/
def has_concrete (title content : String) : Bool :=
  concreteSearch (title ++ content).data

/-- config.judge_confidence. -/
def judge_confidence (title content type_ : String) : String :=
  if has_decisive title content && has_concrete title content
      && (type_ == "decision" || type_ == "config") then "HIGH"
  else if hasSubstr (lowerStr (title ++ " " ++ content).data) "推奨".data
      || type_ == "procedure" then "MED"
  else "LOW"

/-! ### extractors.py -/

/-- One turn of a conversation log
(extractors.py accesses `turn['role']` and `turn['content']`). -/
structure Turn where
  role : String
  content : String
deriving DecidableEq

/-- One auto-suggestion produced by extractors.extract_suggestions. -/
structure Suggestion where
  title : String
  content : String
  type : String
  confidence : String
deriving DecidableEq

/-- extractors._has_decision_pattern (no lowering in the source). -/
def has_decision_pattern (text : String) : Bool :=
  ["に統一", "を使用", "必ず", "禁止",
   "してはならない", "推奨", "採用", "廃止",
   "べき", "ルール", "原則", "方針"].any (fun p => hasSubstr text.data p.data)

/-- extractors._extract_title: first sentence (split on `。`) of the first
stripped line longer than 10 characters, truncated to 100; otherwise the
first 100 characters of the text, stripped. -/
def extract_title (text : String) : String :=
  let lines := splitOnChar '\n' (stripL text.data)
  match lines.find? (fun line => 10 < (stripL line).length) with
  | some line =>
    let sentences := splitOnChar '。' (stripL line)
    let title := stripL (sentences.headD [])
    String.mk (title.take 100)
  | none => String.mk (stripL (text.data.take 100))

/-- extractors._extract_content: the stripped text, truncated to 500
characters. -/
def extract_content (text : String) : String :=
  String.mk ((stripL text.data).take 500)

/-- The per-type score of extractors.judge_type:
`sum(1 for k in keywords if k in text)`, the number of keywords of the set
that occur in the text. -/
def keywordScore (keywords : List String) (text : List Char) : Nat :=
  (keywords.filter (fun k => hasSubstr text k.data)).length

/-- extractors.judge_type.  `max(type_scores, key=type_scores.get)` on a
Python dict returns the first key (in insertion order) attaining the maximal
score; the fold below replaces the running best only on a strictly greater
score, which is exactly that semantics. -/
def judge_type (title content : String) : String :=
  let text := lowerStr (title ++ " " ++ content).data
  let type_scores := TYPE_KEYWORDS.map (fun tk => (tk.1, keywordScore tk.2 text))
  match type_scores with
  | [] => "decision"
  | x :: xs =>
    let mx := xs.foldl (fun best y => if y.2 > best.2 then y else best) x
    if mx.2 > 0 then mx.1 else "decision"

/-- The count `len(set(title) & set(existing_title))` of
extractors._is_duplicate. -/
def charCommonCount (t1 t2 : String) : Nat :=
  (t1.data.dedup.filter (fun c => t2.data.contains c)).length

/-- The per-pair test of extractors._is_duplicate: exact title equality, or
`len(set(title) & set(existing_title)) / max(len(title), len(existing_title))`
strictly above 0.7.  The float comparison is modelled exactly by
`10 * common > 7 * max`: both sides of the source comparison are rationals with
denominator at most a few hundred, so correctly-rounded double division
agrees with the rational comparison (and `7/10` itself rounds to the same
double as the literal `0.7`). -/
def title_similar (title existing_title : String) : Bool :=
  title == existing_title ||
    decide (10 * charCommonCount title existing_title >
      7 * Nat.max title.data.length existing_title.data.length)

/-- extractors._is_duplicate: is any already-kept suggestion's title similar
to the candidate title (the `content` argument is unused in the source). -/
def is_duplicate (title : String) (content : String) (existing : List Suggestion) : Bool :=
  existing.any (fun item => title_similar title item.title)

/-- The loop of extractors.extract_suggestions over the conversation log,
carrying the list of suggestions accepted so far. -/
def extract_loop : List Turn → List Suggestion → List Suggestion
  | [], acc => acc
  | turn :: rest, acc =>
    if turn.role != "assistant" then extract_loop rest acc
    else if !(has_decision_pattern turn.content) then extract_loop rest acc
    else
      let title := extract_title turn.content
      let ec := extract_content turn.content
      if title.isEmpty || ec.isEmpty then extract_loop rest acc
      else
        let type_ := judge_type title ec
        let confidence := judge_confidence title ec type_
        if confidence != "HIGH" then extract_loop rest acc
        else if is_duplicate title ec acc then extract_loop rest acc
        else
          let acc2 := acc ++ [⟨title, ec, type_, confidence⟩]
          if MAX_AUTO_SUGGESTIONS ≤ acc2.length then acc2
          else extract_loop rest acc2

/-- extractors.extract_suggestions (its `db` argument is unused in the
source). -/
def extract_suggestions (conversation_log : List Turn) : List Suggestion :=
  extract_loop conversation_log []

/-! ### memory_db.py — the memory_items store -/

/-- One row of the `memory_items` table. -/
structure MemoryItem where
  id : Nat
  key : String
  key_layer : String
  title : String
  content : String
  type : String
  status : String
  is_canonical : Bool
  supersedes : Option Nat
  confidence : String
  conversation_id : Option String
  created_at : String
  updated_at : String
deriving DecidableEq

/-- The `memory_items` table plus the AUTOINCREMENT id counter. -/
structure Store where
  rows : List MemoryItem
  next_id : Nat
deriving DecidableEq

/-- The spec's error taxonomy for the two `raise ValueError` sites of
finalize_item / supersede_item: NotFoundError for an absent id,
InvalidStateError for a row not in the required status. -/
inductive DBError where
  | notFoundError
  | invalidStateError
deriving DecidableEq

/-- MemoryDB._has_enough_info: at least two alphanumeric tokens of length
at least 2 (tokens are maximal `[A-Za-z0-9_]+` runs). -/
def has_enough_info (text : String) : Bool :=
  2 ≤ ((alnumTokens text.data).filter (fun t => 2 ≤ t.length)).length

/-- MemoryDB.suggest_key.  The FTS5/bm25 ranking behind
MemoryDB.search_similar_key lives in the database engine; it is abstracted
as the oracle `searchSimilar`, which stands for the (key, key_layer) column
pairs of `search_similar_key(title, limit=3)`.  The `type_` argument is
unused, as in the source. -/
def suggest_key (searchSimilar : String → List (String × String))
    (title content type_ : String) : String × String :=
  match generate_key_by_map title content with
  | some result => result
  | none =>
    if has_enough_info title then
      match searchSimilar title with
      | hit :: _ => hit
      | [] => ("misc_operation", "operation")
    else ("misc_operation", "operation")

/-- MemoryDB.insert_draft: computes key/key_layer via suggest_key and
confidence via judge_confidence, then inserts one row with status `draft`
(is_canonical takes the schema default FALSE, supersedes NULL); returns the
new row id.  `now` stands for CURRENT_TIMESTAMP. -/
def insert_draft (searchSimilar : String → List (String × String)) (st : Store)
    (title content type_ : String) (conversation_id : Option String)
    (now : String) : Store × Nat :=
  let kl := suggest_key searchSimilar title content type_
  let confidence := judge_confidence title content type_
  let row : MemoryItem :=
    { id := st.next_id, key := kl.1, key_layer := kl.2, title := title,
      content := content, type := type_, status := "draft", is_canonical := false,
      supersedes := none, confidence := confidence,
      conversation_id := conversation_id, created_at := now, updated_at := now }
  ({ rows := st.rows ++ [row], next_id := st.next_id + 1 }, st.next_id)

/-- The `UPDATE ... SET status='obsolete', is_canonical=FALSE,
updated_at=CURRENT_TIMESTAMP` applied by finalize_item and supersede_item. -/
def demoteRow (r : MemoryItem) (now : String) : MemoryItem :=
  { r with status := "obsolete", is_canonical := false, updated_at := now }

/-- The `UPDATE ... SET status='final', is_canonical=TRUE,
updated_at=CURRENT_TIMESTAMP` applied by finalize_item. -/
def promoteRow (r : MemoryItem) (now : String) : MemoryItem :=
  { r with status := "final", is_canonical := true, updated_at := now }

/-- MemoryDB.finalize_item.  The two `raise ValueError` sites happen before
any write, and every exception rolls the transaction back, so a failing call
returns the original store together with the error. -/
def finalize_item (st : Store) (draft_id : Nat) (now : String) :
    Store × Except DBError Nat :=
  match st.rows.find? (fun r => r.id == draft_id) with
  | none => (st, .error .notFoundError)
  | some draft =>
    if draft.status != "draft" then (st, .error .invalidStateError)
    else
      let existing := st.rows.find? (fun r =>
        r.key == draft.key && r.key_layer == draft.key_layer &&
        r.is_canonical && r.status == "final")
      let rows1 :=
        match existing with
        | some e => st.rows.map (fun r : MemoryItem =>
            if r.id == e.id then demoteRow r now else r)
        | none => st.rows
      let rows2 := rows1.map (fun r : MemoryItem =>
        if r.id == draft_id then promoteRow r now else r)
      ({ st with rows := rows2 }, .ok draft_id)

/-- The provenance note supersede_item appends to the caller's new content
(`update_date` stands for `datetime.now().strftime('%Y-%m-%d')`). -/
def updateNote (update_date old_conv_id conversation_id : String) : String :=
  "\n\n---\n（更新履歴）\n" ++ update_date ++ ": 元会話ID=" ++ old_conv_id ++
    " を会話ID=" ++ conversation_id ++ " で更新"

/-- MemoryDB.supersede_item: requires the old row to be canonical final,
demotes it, and inserts the new canonical-final row inheriting key,
key_layer and type, with the provenance note appended to the content
(a NULL old conversation id is displayed as `不明`). -/
def supersede_item (st : Store) (old_id : Nat) (new_title new_content : String)
    (conversation_id : String) (update_date now : String) :
    Store × Except DBError Nat :=
  match st.rows.find? (fun r => r.id == old_id) with
  | none => (st, .error .notFoundError)
  | some old_item =>
    if !old_item.is_canonical || old_item.status != "final" then
      (st, .error .invalidStateError)
    else
      let new_confidence := judge_confidence new_title new_content old_item.type
      let old_conv_id := old_item.conversation_id.getD "不明"
      let final_content := new_content ++ updateNote update_date old_conv_id conversation_id
      let rows1 := st.rows.map (fun r => if r.id == old_id then demoteRow r now else r)
      let newRow : MemoryItem :=
        { id := st.next_id, key := old_item.key, key_layer := old_item.key_layer,
          title := new_title, content := final_content, type := old_item.type,
          status := "final", is_canonical := true, supersedes := some old_id,
          confidence := new_confidence, conversation_id := some conversation_id,
          created_at := now, updated_at := now }
      ({ rows := rows1 ++ [newRow], next_id := st.next_id + 1 }, .ok st.next_id)

/-! ### Invariants of the store -/

/-- A row counting towards invariant I1: `is_canonical=TRUE AND
status='final'`. -/
def canonicalFinal (r : MemoryItem) : Bool :=
  r.is_canonical && r.status == "final"

/-- Invariant I1: for every (key, key_layer) pair, at most one row is
canonical final — any two such rows sharing key and key_layer are the same
row (rows are identified by their id). -/
def I1 (st : Store) : Prop :=
  ∀ a ∈ st.rows, ∀ b ∈ st.rows, canonicalFinal a → canonicalFinal b →
    a.key = b.key → a.key_layer = b.key_layer → a.id = b.id

/-- Well-formedness of the store: ids are unique (the PRIMARY KEY) and below
the AUTOINCREMENT counter. -/
def WF (st : Store) : Prop :=
  (st.rows.map MemoryItem.id).Nodup ∧ ∀ r ∈ st.rows, r.id < st.next_id

instance (st : Store) : Decidable (I1 st) := by
  unfold I1; infer_instance

instance (st : Store) : Decidable (WF st) := by
  unfold WF; infer_instance

/-! ### Helper lemmas -/

/-- Rows with equal ids are equal in a well-formed store. -/
lemma wf_id_inj {st : Store} (hwf : WF st) {a b : MemoryItem}
    (ha : a ∈ st.rows) (hb : b ∈ st.rows) (h : a.id = b.id) : a = b :=
  List.inj_on_of_nodup_map hwf.1 ha hb h

/-- `find?` by id commutes with an id-preserving row update. -/
lemma find?_map_id {l : List MemoryItem} {g : MemoryItem → MemoryItem}
    (hg : ∀ r, (g r).id = r.id) (i : Nat) :
    (l.map g).find? (fun r => r.id == i) = (l.find? (fun r => r.id == i)).map g := by
  induction l with
  | nil => rfl
  | cons x xs ih =>
    by_cases hxi : x.id = i
    · rw [List.map_cons, List.find?_cons_of_pos, List.find?_cons_of_pos] <;>
        simp [hg, hxi]
    · rw [List.map_cons, List.find?_cons_of_neg, List.find?_cons_of_neg, ih] <;>
        simp [hg, hxi]

/-- A demoted row is never canonical final. -/
lemma canonicalFinal_demoteRow (r : MemoryItem) (now : String) :
    canonicalFinal (demoteRow r now) = false := by
  simp [canonicalFinal, demoteRow]

/-- Inserting a draft preserves invariant I1: the new row is a
non-canonical draft and every other row is untouched. -/
lemma I1_insert_draft (searchSimilar : String → List (String × String))
    (st : Store) (title content type_ : String) (conv : Option String)
    (now : String) (h1 : I1 st) :
    I1 (insert_draft searchSimilar st title content type_ conv now).1 := by
  intro a ha b hb hca hcb hk hl
  simp only [insert_draft, List.mem_append, List.mem_singleton] at ha hb
  rcases ha with ha | rfl
  · rcases hb with hb | rfl
    · exact h1 a ha b hb hca hcb hk hl
    · simp [canonicalFinal] at hcb
  · simp [canonicalFinal] at hca

/-- finalize_item preserves invariant I1. -/
lemma I1_finalize_item (st : Store) (did : Nat) (now : String)
    (hwf : WF st) (h1 : I1 st) : I1 (finalize_item st did now).1 := by
  unfold finalize_item
  cases hfd : st.rows.find? (fun r => r.id == did) with
  | none => exact h1
  | some d =>
    have hd_mem : d ∈ st.rows := List.mem_of_find?_eq_some hfd
    have hd_id : d.id = did := by simpa using List.find?_some hfd
    by_cases hds : d.status = "draft"
    · simp only [hds, bne_self_eq_false, Bool.false_eq_true, if_false]
      cases hfe : st.rows.find? (fun r =>
          r.key == d.key && r.key_layer == d.key_layer &&
          r.is_canonical && r.status == "final") with
      | some e =>
        have he_mem : e ∈ st.rows := List.mem_of_find?_eq_some hfe
        have he_pred : e.key = d.key ∧ e.key_layer = d.key_layer ∧
            e.is_canonical = true ∧ e.status = "final" := by
          have := List.find?_some hfe
          simp only [Bool.and_eq_true, beq_iff_eq] at this
          exact ⟨this.1.1.1, this.1.1.2, this.1.2, this.2⟩
        have he_cf : canonicalFinal e = true := by
          simp [canonicalFinal, he_pred.2.2.1, he_pred.2.2.2]
        have he_ne : e.id ≠ did := by
          intro h
          have : e = d := wf_id_inj hwf he_mem hd_mem (h.trans hd_id.symm)
          rw [this, hds] at he_pred
          exact absurd he_pred.2.2.2 (by decide)
        -- characterize the canonical-final rows of the updated table
        have char : ∀ x, x ∈ (st.rows.map (fun r : MemoryItem =>
              if r.id == e.id then demoteRow r now else r)).map
              (fun r : MemoryItem => if r.id == did then promoteRow r now else r) →
            canonicalFinal x = true →
            x = promoteRow d now ∨
              (x ∈ st.rows ∧ canonicalFinal x = true ∧ x.id ≠ did ∧ x.id ≠ e.id) := by
          intro x hx hcf
          rw [List.map_map] at hx
          obtain ⟨ra, hra, rfl⟩ := List.mem_map.1 hx
          by_cases h1a : ra.id = did
          · have hra_d : ra = d := wf_id_inj hwf hra hd_mem (h1a.trans hd_id.symm)
            left
            subst hra_d
            have hne : (ra.id == e.id) = false := by
              simp only [h1a, beq_eq_false_iff_ne]
              exact fun h => he_ne h.symm
            have h1b : (ra.id == did) = true := by simp [h1a]
            simp [Function.comp, hne, h1b]
          · have h1b : (ra.id == did) = false := by simp [h1a]
            by_cases h2a : ra.id = e.id
            · exfalso
              have h2b : (ra.id == e.id) = true := by simp [h2a]
              simp [Function.comp, h2b, h1b, demoteRow, canonicalFinal] at hcf
            · right
              have h2b : (ra.id == e.id) = false := by simp [h2a]
              simp only [Function.comp_apply, h1b, h2b, Bool.false_eq_true,
                if_false] at hcf ⊢
              exact ⟨hra, hcf, h1a, h2a⟩
        intro a ha b hb hca hcb hk hl
        rcases char a ha hca with rfl | ⟨ha_mem, ha_cf, _, ha_ne⟩ <;>
          rcases char b hb hcb with rfl | ⟨hb_mem, hb_cf, _, hb_ne⟩
        · rfl
        · exfalso
          apply hb_ne
          have hbk : b.key = e.key := by
            rw [he_pred.1]
            simpa [promoteRow] using hk.symm
          have hbl : b.key_layer = e.key_layer := by
            rw [he_pred.2.1]
            simpa [promoteRow] using hl.symm
          exact h1 b hb_mem e he_mem hb_cf he_cf hbk hbl
        · exfalso
          apply ha_ne
          have hak : a.key = e.key := by
            rw [he_pred.1]
            simpa [promoteRow] using hk
          have hal : a.key_layer = e.key_layer := by
            rw [he_pred.2.1]
            simpa [promoteRow] using hl
          exact h1 a ha_mem e he_mem ha_cf he_cf hak hal
        · exact h1 a ha_mem b hb_mem ha_cf hb_cf hk hl
      | none =>
        have hnone : ∀ x ∈ st.rows, canonicalFinal x = true → x.key = d.key →
            x.key_layer = d.key_layer → False := by
          intro x hx hcf hxk hxl
          have := List.find?_eq_none.1 hfe x hx
          apply this
          simp only [canonicalFinal, Bool.and_eq_true, beq_iff_eq] at hcf ⊢
          exact ⟨⟨⟨hxk, hxl⟩, hcf.1⟩, hcf.2⟩
        have char : ∀ x, x ∈ st.rows.map
              (fun r : MemoryItem => if r.id == did then promoteRow r now else r) →
            canonicalFinal x = true →
            x = promoteRow d now ∨
              (x ∈ st.rows ∧ canonicalFinal x = true ∧ x.id ≠ did) := by
          intro x hx hcf
          obtain ⟨ra, hra, rfl⟩ := List.mem_map.1 hx
          by_cases h1a : ra.id = did
          · have hra_d : ra = d := wf_id_inj hwf hra hd_mem (h1a.trans hd_id.symm)
            left
            subst hra_d
            simp [h1a]
          · right
            rw [if_neg (by simp [h1a])] at hcf ⊢
            exact ⟨hra, hcf, h1a⟩
        intro a ha b hb hca hcb hk hl
        rcases char a ha hca with rfl | ⟨ha_mem, ha_cf, _⟩ <;>
          rcases char b hb hcb with rfl | ⟨hb_mem, hb_cf, _⟩
        · rfl
        · exact (hnone b hb_mem hb_cf (by simpa [promoteRow] using hk.symm)
            (by simpa [promoteRow] using hl.symm)).elim
        · exact (hnone a ha_mem ha_cf (by simpa [promoteRow] using hk)
            (by simpa [promoteRow] using hl)).elim
        · exact h1 a ha_mem b hb_mem ha_cf hb_cf hk hl
    · have : (d.status != "draft") = true := by simpa using hds
      simp only [this, if_true]
      exact h1

/-- supersede_item preserves invariant I1: every row carrying the old id is
demoted in the same transaction that inserts the single new canonical row. -/
lemma I1_supersede_item (st : Store) (old_id : Nat)
    (new_title new_content conversation_id update_date now : String)
    (h1 : I1 st) :
    I1 (supersede_item st old_id new_title new_content conversation_id
      update_date now).1 := by
  unfold supersede_item
  cases hfo : st.rows.find? (fun r => r.id == old_id) with
  | none => exact h1
  | some old_item =>
    have ho_mem : old_item ∈ st.rows := List.mem_of_find?_eq_some hfo
    have ho_id : old_item.id = old_id := by simpa using List.find?_some hfo
    cases hcond : (!old_item.is_canonical || old_item.status != "final") with
    | true =>
      simp only [hcond, if_true]
      exact h1
    | false =>
      simp only [hcond, Bool.false_eq_true, if_false]
      have hco : old_item.is_canonical = true ∧ old_item.status = "final" := by
        rw [Bool.or_eq_false_iff] at hcond
        constructor
        · have := hcond.1
          rwa [Bool.not_eq_false'] at this
        · have := hcond.2
          rwa [bne_eq_false_iff_eq] at this
      have ho_cf : canonicalFinal old_item = true := by
        simp [canonicalFinal, hco.1, hco.2]
      have char : ∀ x, x ∈ (st.rows.map (fun r : MemoryItem =>
            if r.id == old_id then demoteRow r now else r)) ++
            [{ id := st.next_id, key := old_item.key, key_layer := old_item.key_layer,
               title := new_title,
               content := new_content ++ updateNote update_date
                 (old_item.conversation_id.getD "不明") conversation_id,
               type := old_item.type, status := "final", is_canonical := true,
               supersedes := some old_id,
               confidence := judge_confidence new_title new_content old_item.type,
               conversation_id := some conversation_id,
               created_at := now, updated_at := now }] →
          canonicalFinal x = true →
          (x.key = old_item.key ∧ x.key_layer = old_item.key_layer ∧
            x.id = st.next_id) ∨
            (x ∈ st.rows ∧ canonicalFinal x = true ∧ x.id ≠ old_id) := by
        intro x hx hcf
        rcases List.mem_append.1 hx with hx | hx
        · obtain ⟨ra, hra, rfl⟩ := List.mem_map.1 hx
          by_cases hid : ra.id = old_id
          · have hb : (ra.id == old_id) = true := by simp [hid]
            simp [hb, demoteRow, canonicalFinal] at hcf
          · have hb : (ra.id == old_id) = false := by simp [hid]
            simp only [hb, Bool.false_eq_true, if_false] at hcf ⊢
            exact Or.inr ⟨hra, hcf, hid⟩
        · rw [List.mem_singleton] at hx
          subst hx
          exact Or.inl ⟨rfl, rfl, rfl⟩
      intro a ha b hb hca hcb hk hl
      rcases char a ha hca with ⟨hak, hal, haid⟩ | ⟨ha_mem, ha_cf, ha_ne⟩ <;>
        rcases char b hb hcb with ⟨hbk, hbl, hbid⟩ | ⟨hb_mem, hb_cf, hb_ne⟩
      · rw [haid, hbid]
      · exact (hb_ne ((h1 b hb_mem old_item ho_mem hb_cf ho_cf
          (hk ▸ hak) (hl ▸ hal)).trans ho_id)).elim
      · exact (ha_ne ((h1 a ha_mem old_item ho_mem ha_cf ho_cf
          (hk.symm ▸ hbk) (hl.symm ▸ hbl)).trans ho_id)).elim
      · exact h1 a ha_mem b hb_mem ha_cf hb_cf hk hl

/-- The result of a successful supersede_item, in closed form. -/
lemma supersede_item_success {st : Store} {old_id : Nat} {r : MemoryItem}
    (hf : st.rows.find? (fun x => x.id == old_id) = some r)
    (hc : r.is_canonical = true) (hs : r.status = "final")
    (new_title new_content conversation_id update_date now : String) :
    supersede_item st old_id new_title new_content conversation_id
        update_date now =
      ({ rows := st.rows.map (fun x : MemoryItem =>
            if x.id == old_id then demoteRow x now else x) ++
          [{ id := st.next_id, key := r.key, key_layer := r.key_layer,
             title := new_title,
             content := new_content ++ updateNote update_date
               (r.conversation_id.getD "不明") conversation_id,
             type := r.type, status := "final", is_canonical := true,
             supersedes := some old_id,
             confidence := judge_confidence new_title new_content r.type,
             conversation_id := some conversation_id,
             created_at := now, updated_at := now }],
         next_id := st.next_id + 1 }, .ok st.next_id) := by
  unfold supersede_item
  rw [hf]
  simp [hc, hs]

/-! ### Claim theorems: the versioned-record lifecycle (C1 - C4, C10) -/

/-- A canonical-final row used by the witnesses below. -/
def wRow1 : MemoryItem :=
  { id := 1, key := "k", key_layer := "operation", title := "t", content := "c",
    type := "decision", status := "final", is_canonical := true, supersedes := none,
    confidence := "HIGH", conversation_id := some "cv", created_at := "d1",
    updated_at := "d1" }

/-- A store holding exactly the canonical-final row `wRow1`. -/
def wStore1 : Store := { rows := [wRow1], next_id := 2 }

/-- A draft row used by the witnesses below. -/
def wDraftRow : MemoryItem :=
  { id := 1, key := "k", key_layer := "operation", title := "t", content := "c",
    type := "decision", status := "draft", is_canonical := false, supersedes := none,
    confidence := "HIGH", conversation_id := some "cv", created_at := "d1",
    updated_at := "d1" }

/-- A store holding exactly the draft row `wDraftRow`. -/
def wStoreD : Store := { rows := [wDraftRow], next_id := 2 }

/-- C1: for every (key, key_layer) pair, at most one row of memory_items is
canonical final at any instant; the invariant is preserved by every
insert_draft, finalize_item and supersede_item call applied to a
well-formed state satisfying it. -/
theorem C1_canonical_uniqueness
    (searchSimilar : String → List (String × String)) (st : Store)
    (title content type_ : String) (conv : Option String) (did old_id : Nat)
    (new_title new_content conversation_id update_date now : String)
    (hwf : WF st) (h1 : I1 st) :
    I1 (insert_draft searchSimilar st title content type_ conv now).1 ∧
    I1 (finalize_item st did now).1 ∧
    I1 (supersede_item st old_id new_title new_content conversation_id
      update_date now).1 :=
  ⟨I1_insert_draft searchSimilar st title content type_ conv now h1,
   I1_finalize_item st did now hwf h1,
   I1_supersede_item st old_id new_title new_content conversation_id
     update_date now h1⟩

/-- Witness for C1 at a concrete one-row canonical store. -/
theorem C1_canonical_uniqueness_witness :
    WF wStore1 ∧ I1 wStore1 ∧
      (I1 (insert_draft (fun _ => []) wStore1 "x" "y" "decision" none "d2").1 ∧
       I1 (finalize_item wStore1 1 "d2").1 ∧
       I1 (supersede_item wStore1 1 "t2" "c2" "cv2" "dt" "d2").1) :=
  ⟨by decide, by decide,
   C1_canonical_uniqueness (fun _ => []) wStore1 "x" "y" "decision" none 1 1
     "t2" "c2" "cv2" "dt" "d2" (by decide) (by decide)⟩

/-- C2: finalize_item on an absent id fails with NotFoundError; on an id
whose row is not a draft it fails with InvalidStateError; in both failure
cases the returned store is exactly the input store (the transaction rolls
back), so any previously-final row is untouched. -/
theorem C2_finalize_failure_modes (st : Store) (did : Nat) (now : String) :
    (st.rows.find? (fun r => r.id == did) = none →
      finalize_item st did now = (st, .error .notFoundError)) ∧
    (∀ d, st.rows.find? (fun r => r.id == did) = some d → d.status ≠ "draft" →
      finalize_item st did now = (st, .error .invalidStateError)) := by
  constructor
  · intro h
    unfold finalize_item
    rw [h]
  · intro d h hds
    unfold finalize_item
    rw [h]
    have hb : (d.status != "draft") = true := by simpa [bne_iff_ne] using hds
    simp [hb]

/-- Witness for C2: an absent id on an empty store, and a final (non-draft)
row's id. -/
theorem C2_finalize_failure_modes_witness :
    finalize_item { rows := [], next_id := 1 } 5 "d2" =
        ({ rows := [], next_id := 1 }, .error .notFoundError) ∧
      finalize_item wStore1 1 "d2" = (wStore1, .error .invalidStateError) :=
  ⟨(C2_finalize_failure_modes { rows := [], next_id := 1 } 5 "d2").1 rfl,
   (C2_finalize_failure_modes wStore1 1 "d2").2 wRow1 rfl (by decide)⟩

/-- C3: supersede_item succeeds only on a canonical-final row: if the row
exists but is not canonical final the call fails with InvalidStateError and
the store is unchanged; consequently a second supersede_item on the same
old_id (whose row is by then obsolete) fails with InvalidStateError. -/
theorem C3_supersede_precondition (st : Store) (old_id : Nat)
    (nt nc cid date now nt2 nc2 cid2 date2 now2 : String) :
    (∀ r, st.rows.find? (fun x => x.id == old_id) = some r →
      ¬ (r.is_canonical = true ∧ r.status = "final") →
      supersede_item st old_id nt nc cid date now =
        (st, .error .invalidStateError)) ∧
    (∀ r, st.rows.find? (fun x => x.id == old_id) = some r →
      r.is_canonical = true → r.status = "final" →
      supersede_item (supersede_item st old_id nt nc cid date now).1 old_id
          nt2 nc2 cid2 date2 now2 =
        ((supersede_item st old_id nt nc cid date now).1,
          .error .invalidStateError)) := by
  constructor
  · intro r hf hncf
    unfold supersede_item
    rw [hf]
    have hcond : (!r.is_canonical || r.status != "final") = true := by
      cases hrc : r.is_canonical with
      | false => simp
      | true =>
        simp only [hrc, Bool.not_true, Bool.false_or, bne_iff_ne, ne_eq]
        intro hS
        exact hncf ⟨hrc, hS⟩
    simp [hcond]
  · intro r hf hc hs
    have hr_id : r.id = old_id := by simpa using List.find?_some hf
    have hgid : ∀ x : MemoryItem,
        (if (x.id == old_id) = true then demoteRow x now else x).id = x.id := by
      intro x
      by_cases h : (x.id == old_id) = true <;> simp [h, demoteRow]
    rw [supersede_item_success hf hc hs nt nc cid date now]
    have hfind :
        ((st.rows.map (fun x : MemoryItem =>
            if x.id == old_id then demoteRow x now else x)) ++
          [({ id := st.next_id, key := r.key, key_layer := r.key_layer,
              title := nt,
              content := nc ++ updateNote date
                (r.conversation_id.getD "不明") cid,
              type := r.type, status := "final", is_canonical := true,
              supersedes := some old_id,
              confidence := judge_confidence nt nc r.type,
              conversation_id := some cid, created_at := now,
              updated_at := now } : MemoryItem)]).find?
            (fun x => x.id == old_id) =
          some (demoteRow r now) := by
      rw [List.find?_append, find?_map_id hgid old_id, hf]
      simp [hr_id, Option.or]
    unfold supersede_item
    rw [hfind]
    simp [demoteRow]

/-- Witness for C3: a draft row rejects supersede_item; a successful
supersede_item on a canonical-final row makes the second call fail. -/
theorem C3_supersede_precondition_witness :
    supersede_item wStoreD 1 "t2" "c2" "cv2" "dt" "d2" =
        (wStoreD, .error .invalidStateError) ∧
      supersede_item (supersede_item wStore1 1 "t2" "c2" "cv2" "dt" "d2").1 1
          "t3" "c3" "cv3" "dt3" "d3" =
        ((supersede_item wStore1 1 "t2" "c2" "cv2" "dt" "d2").1,
          .error .invalidStateError) :=
  ⟨(C3_supersede_precondition wStoreD 1 "t2" "c2" "cv2" "dt" "d2"
      "t3" "c3" "cv3" "dt3" "d3").1 wDraftRow rfl (by decide),
   (C3_supersede_precondition wStore1 1 "t2" "c2" "cv2" "dt" "d2"
      "t3" "c3" "cv3" "dt3" "d3").2 wRow1 rfl rfl rfl⟩

/-- C4: a successful supersede_item on a canonical-final row returns the new
id, grows the table by exactly one row, leaves every row with a different id
in place, demotes the old row to obsolete/non-canonical, and adds one new
row with the old row's key and key_layer, status final, is_canonical true,
supersedes = old_id, confidence recomputed from the new text, and content
equal to the caller's new content followed by the appended provenance note
naming the prior conversation id, the date and the new conversation id. -/
theorem C4_supersede_postcondition (st : Store) (old_id : Nat)
    (nt nc cid date now : String) (r : MemoryItem)
    (hf : st.rows.find? (fun x => x.id == old_id) = some r)
    (hc : r.is_canonical = true) (hs : r.status = "final") :
    (supersede_item st old_id nt nc cid date now).2 = .ok st.next_id ∧
    (supersede_item st old_id nt nc cid date now).1.rows.length =
      st.rows.length + 1 ∧
    (∀ x ∈ st.rows, x.id ≠ old_id →
      x ∈ (supersede_item st old_id nt nc cid date now).1.rows) ∧
    demoteRow r now ∈ (supersede_item st old_id nt nc cid date now).1.rows ∧
    (demoteRow r now).status = "obsolete" ∧
    (demoteRow r now).is_canonical = false ∧
    (∃ nr ∈ (supersede_item st old_id nt nc cid date now).1.rows,
      nr.id = st.next_id ∧ nr.key = r.key ∧ nr.key_layer = r.key_layer ∧
      nr.status = "final" ∧ nr.is_canonical = true ∧
      nr.supersedes = some old_id ∧
      nr.confidence = judge_confidence nt nc r.type ∧ nr.title = nt ∧
      nr.content = nc ++ updateNote date (r.conversation_id.getD "不明") cid ∧
      nr.conversation_id = some cid) := by
  have hr_id : r.id = old_id := by simpa using List.find?_some hf
  have hr_mem : r ∈ st.rows := List.mem_of_find?_eq_some hf
  rw [supersede_item_success hf hc hs nt nc cid date now]
  refine ⟨rfl, by simp, ?_, ?_, rfl, rfl, ?_⟩
  · intro x hx hne
    exact List.mem_append.2 (Or.inl (List.mem_map.2 ⟨x, hx, by simp [hne]⟩))
  · exact List.mem_append.2 (Or.inl (List.mem_map.2 ⟨r, hr_mem, by simp [hr_id]⟩))
  · exact ⟨_, List.mem_append.2 (Or.inr (List.mem_singleton.2 rfl)),
      rfl, rfl, rfl, rfl, rfl, rfl, rfl, rfl, rfl, rfl⟩

/-- Witness for C4 at the one-row canonical store. -/
theorem C4_supersede_postcondition_witness :
    (supersede_item wStore1 1 "t2" "c2" "cv2" "dt" "d2").2 = .ok 2 ∧
      (supersede_item wStore1 1 "t2" "c2" "cv2" "dt" "d2").1.rows.length = 2 :=
  ⟨(C4_supersede_postcondition wStore1 1 "t2" "c2" "cv2" "dt" "d2" wRow1
      rfl rfl rfl).1,
   (C4_supersede_postcondition wStore1 1 "t2" "c2" "cv2" "dt" "d2" wRow1
      rfl rfl rfl).2.1⟩

/-- C10: the new row created by a successful supersede_item inherits the
superseded row's type (supersede_item takes no type argument), and its
confidence is recomputed against that inherited type. -/
theorem C10_supersede_preserves_type (st : Store) (old_id : Nat)
    (nt nc cid date now : String) (r : MemoryItem)
    (hf : st.rows.find? (fun x => x.id == old_id) = some r)
    (hc : r.is_canonical = true) (hs : r.status = "final") :
    ∃ nr ∈ (supersede_item st old_id nt nc cid date now).1.rows,
      nr.id = st.next_id ∧ nr.type = r.type ∧
      nr.confidence = judge_confidence nt nc r.type := by
  rw [supersede_item_success hf hc hs nt nc cid date now]
  exact ⟨_, List.mem_append.2 (Or.inr (List.mem_singleton.2 rfl)),
    rfl, rfl, rfl⟩

/-- Witness for C10 at the one-row canonical store. -/
theorem C10_supersede_preserves_type_witness :
    ∃ nr ∈ (supersede_item wStore1 1 "t2" "c2" "cv2" "dt" "d2").1.rows,
      nr.id = 2 ∧ nr.type = wRow1.type ∧
      nr.confidence = judge_confidence "t2" "c2" wRow1.type :=
  C10_supersede_preserves_type wStore1 1 "t2" "c2" "cv2" "dt" "d2" wRow1
    rfl rfl rfl

/-! ### Claim theorems: key assignment and classification (C5 - C8) -/

/-- C5 counterexample: for title "あれ" and content "abc def" the keyword-map
tier does not match and the combined text has two alphanumeric tokens of
length at least 2, yet suggest_key returns the default bucket without ever
consulting the similarity oracle (even one that would return a hit): the
token gate tests the title alone. -/
theorem C5_counterexample :
    generate_key_by_map "あれ" "abc def" = none ∧
    has_enough_info ("あれ" ++ " " ++ "abc def") = true ∧
    has_enough_info "あれ" = false ∧
    suggest_key (fun _ => [("port_and_protocol_policy", "operation")])
      "あれ" "abc def" "decision" = ("misc_operation", "operation") :=
  ⟨by decide, by decide, by decide, by decide⟩

/-- C5 (amended): when the keyword-map tier does not match, the similarity
fallback is attempted if and only if the TITLE contains at least two
alphanumeric tokens of length at least 2; if the gate fails (or the
similarity search returns no hit) the result is the default bucket
("misc_operation", "operation"). -/
theorem C5_similarity_gate (searchSimilar : String → List (String × String))
    (title content type_ : String)
    (hmap : generate_key_by_map title content = none) :
    suggest_key searchSimilar title content type_ =
      if has_enough_info title then
        match searchSimilar title with
        | hit :: _ => hit
        | [] => ("misc_operation", "operation")
      else ("misc_operation", "operation") := by
  unfold suggest_key
  rw [hmap]

/-- Witness for C5 at a concrete unmatched title with enough tokens and an
empty similarity result. -/
theorem C5_similarity_gate_witness :
    suggest_key (fun _ => []) "zz xx" "" "decision" =
      ("misc_operation", "operation") :=
  (C5_similarity_gate (fun _ => []) "zz xx" "" "decision" (by decide)).trans
    (by decide)

/-- The first-strict-maximum fold of judge_type
(Python max over a dict in insertion order), in closed form. -/
lemma judge_type_fold (sd sc sp sn : Nat) :
    ([(("config" : String), sc), ("procedure", sp), ("design_note", sn)].foldl
        (fun best y => if y.2 > best.2 then y else best) ("decision", sd)) =
      if sc > sd then
        if sp > sc then
          if sn > sp then ("design_note", sn) else ("procedure", sp)
        else if sn > sc then ("design_note", sn) else ("config", sc)
      else
        if sp > sd then
          if sn > sp then ("design_note", sn) else ("procedure", sp)
        else if sn > sd then ("design_note", sn) else ("decision", sd) := by
  simp only [List.foldl_cons, List.foldl_nil]
  by_cases h1 : sc > sd
  · by_cases h2 : sp > sc <;> simp [h1, h2]
  · by_cases h2 : sp > sd <;> simp [h1, h2]

/-- Modelled from the spec wording of 4.2: pick the type with the strictly
highest keyword count; resolve ties by the fixed priority order
decision > config > procedure > design_note; if every count is zero return
decision.  A type wins exactly when it beats every higher-priority type
strictly and every lower-priority type weakly. -/
def judge_type_spec (title content : String) : String :=
  let text := lowerStr (title ++ " " ++ content).data
  let sd := keywordScore decision_keywords text
  let sc := keywordScore config_keywords text
  let sp := keywordScore procedure_keywords text
  let sn := keywordScore design_note_keywords text
  if sd = 0 ∧ sc = 0 ∧ sp = 0 ∧ sn = 0 then "decision"
  else if sc ≤ sd ∧ sp ≤ sd ∧ sn ≤ sd then "decision"
  else if sd < sc ∧ sp ≤ sc ∧ sn ≤ sc then "config"
  else if sd < sp ∧ sc < sp ∧ sn ≤ sp then "procedure"
  else "design_note"

/-- The code's first-maximum rule coincides with the spec's
strict-max-with-priority-tie-break rule, for arbitrary scores. -/
lemma judge_type_core (sd sc sp sn : Nat) :
    (if (([(("config" : String), sc), ("procedure", sp), ("design_note", sn)].foldl
          (fun best y => if y.2 > best.2 then y else best) ("decision", sd)).2 > 0)
      then ([(("config" : String), sc), ("procedure", sp), ("design_note", sn)].foldl
          (fun best y => if y.2 > best.2 then y else best) ("decision", sd)).1
      else "decision") =
      (if sd = 0 ∧ sc = 0 ∧ sp = 0 ∧ sn = 0 then "decision"
       else if sc ≤ sd ∧ sp ≤ sd ∧ sn ≤ sd then "decision"
       else if sd < sc ∧ sp ≤ sc ∧ sn ≤ sc then "config"
       else if sd < sp ∧ sc < sp ∧ sn ≤ sp then "procedure"
       else "design_note") := by
  rw [judge_type_fold]
  split_ifs <;> first | rfl | (exfalso; omega)

/-- C6: judge_type counts, for each type, how many of its configured keywords
occur in the lowercased concatenation of title and content, returns the type
with the strictly highest count, resolves ties by the priority order
decision > config > procedure > design_note, and returns decision when every
count is zero. -/
theorem C6_judge_type_rule (title content : String) :
    judge_type title content = judge_type_spec title content := by
  unfold judge_type judge_type_spec
  simp only [TYPE_KEYWORDS, List.map_cons, List.map_nil]
  exact judge_type_core _ _ _ _

/-- C7: judge_confidence returns HIGH iff the text has a decisive marker, a
concrete token, and type decision or config; else MED iff the text contains
the recommendation marker or type is procedure; else LOW; and the spec's
example evaluates to HIGH. -/
theorem C7_judge_confidence_rule :
    (∀ title content type_ : String,
      (judge_confidence title content type_ = "HIGH" ↔
        (has_decisive title content = true ∧ has_concrete title content = true ∧
          (type_ = "decision" ∨ type_ = "config"))) ∧
      (judge_confidence title content type_ = "MED" ↔
        (¬ (has_decisive title content = true ∧ has_concrete title content = true ∧
            (type_ = "decision" ∨ type_ = "config")) ∧
          (hasSubstr (lowerStr (title ++ " " ++ content).data) "推奨".data = true ∨
            type_ = "procedure"))) ∧
      (judge_confidence title content type_ = "LOW" ↔
        (¬ (has_decisive title content = true ∧ has_concrete title content = true ∧
            (type_ = "decision" ∨ type_ = "config")) ∧
          ¬ (hasSubstr (lowerStr (title ++ " " ++ content).data) "推奨".data = true ∨
            type_ = "procedure")))) ∧
    judge_confidence "ポートは22222に統一します" "本番環境でポート22222を使用する"
      "decision" = "HIGH" := by
  constructor
  · intro title content type_
    unfold judge_confidence
    cases hd : has_decisive title content <;>
      cases hc : has_concrete title content <;>
        by_cases h1 : type_ = "decision" <;>
          by_cases h2 : type_ = "config" <;>
            by_cases h3 : type_ = "procedure" <;>
              cases hr : hasSubstr (lowerStr (title ++ " " ++ content).data)
                  "推奨".data <;>
                simp_all
  · decide

/-- C8 counterexample: the end-to-end insert of the spec's example does NOT
assign key "timeout_and_retry_policy": the title "DBタイムアウト設定"
contains "設定", which matches the configuration_management entry scanned
earlier in the operation keyword map. -/
theorem C8_counterexample :
    (insert_draft (fun _ => []) { rows := [], next_id := 1 }
        "DBタイムアウト設定"
        "タイムアウトは30秒に統一します。必ず全サービスで30秒を使用する。"
        "config" (some "conv1") "d1").1.rows.map (fun r => r.key) ≠
      ["timeout_and_retry_policy"] := by decide

/-- C8 (amended): the end-to-end insert creates one draft row with
key "configuration_management", key_layer "operation" and
confidence "HIGH". -/
theorem C8_end_to_end :
    (insert_draft (fun _ => []) { rows := [], next_id := 1 }
        "DBタイムアウト設定"
        "タイムアウトは30秒に統一します。必ず全サービスで30秒を使用する。"
        "config" (some "conv1") "d1").1.rows.map
        (fun r => (r.key, r.key_layer, r.status, r.confidence)) =
      [("configuration_management", "operation", "draft", "HIGH")] := by decide

/-! ### Claim theorems: the extractor (C9) -/

/-- Modelled from the spec wording: character-set Jaccard similarity of two
titles strictly greater than 0.7 (intersection size over union size of the
character sets). -/
def charSetJaccardGt07 (t1 t2 : String) : Bool :=
  let s1 := t1.data.dedup
  let s2 := t2.data.dedup
  let inter := (s1.filter (fun c => s2.contains c)).length
  let union := (s1 ++ s2.filter (fun c => !(s1.contains c))).length
  decide (10 * inter > 7 * union)

/-- C9 counterexample: two assistant turns whose extracted titles have
character-set Jaccard similarity 1 (well above 0.7), yet extract_suggestions
keeps both: the code divides the common-character count by the longer raw
title length (32 here), and 22/32 is below the 0.7 threshold. -/
theorem C9_counterexample :
    (extract_suggestions
        [⟨"assistant", "Abcdefghij2は必ず100に統一します。"⟩,
         ⟨"assistant", "Abcdefghij2は必ず100000000000に統一します。"⟩]).map
        (fun s => s.title) =
      ["Abcdefghij2は必ず100に統一します",
       "Abcdefghij2は必ず100000000000に統一します"] ∧
    charSetJaccardGt07 "Abcdefghij2は必ず100に統一します"
      "Abcdefghij2は必ず100000000000に統一します" = true := by decide

/-- The loop invariant behind C9: starting below the cap with an all-HIGH,
pairwise non-duplicate accumulator, extract_loop returns an all-HIGH list of
at most MAX_AUTO_SUGGESTIONS suggestions in which no title is a duplicate
(under the code's measure) of an earlier kept title. -/
lemma extract_loop_invariant (log : List Turn) (acc : List Suggestion)
    (hlen : acc.length < MAX_AUTO_SUGGESTIONS)
    (hhigh : ∀ s ∈ acc, s.confidence = "HIGH")
    (hpw : List.Pairwise (fun a b => title_similar b.title a.title = false) acc) :
    (extract_loop log acc).length ≤ MAX_AUTO_SUGGESTIONS ∧
    (∀ s ∈ extract_loop log acc, s.confidence = "HIGH") ∧
    List.Pairwise (fun a b => title_similar b.title a.title = false)
      (extract_loop log acc) := by
  induction log generalizing acc with
  | nil =>
    simp only [extract_loop]
    exact ⟨Nat.le_of_lt hlen, hhigh, hpw⟩
  | cons turn rest ih =>
    simp only [extract_loop]
    split_ifs with h1 h2 h3 h4 h5 h6
    · exact ih acc hlen hhigh hpw
    · exact ih acc hlen hhigh hpw
    · exact ih acc hlen hhigh hpw
    · exact ih acc hlen hhigh hpw
    · exact ih acc hlen hhigh hpw
    · -- a new suggestion is appended and the cap is reached
      have hconf : judge_confidence (extract_title turn.content)
          (extract_content turn.content)
          (judge_type (extract_title turn.content)
            (extract_content turn.content)) = "HIGH" := by
        simpa [bne_iff_ne] using h4
      have hnd : ∀ item ∈ acc, title_similar (extract_title turn.content)
          item.title = false := by
        have := Bool.not_eq_true _ ▸ h5
        rw [is_duplicate, List.any_eq_false] at this
        intro item hitem
        simpa using this item hitem
      refine ⟨?_, ?_, ?_⟩
      · simpa [List.length_append] using Nat.succ_le_of_lt hlen
      · intro s hs
        rcases List.mem_append.1 hs with hs | hs
        · exact hhigh s hs
        · rw [List.mem_singleton] at hs
          subst hs
          exact hconf
      · rw [List.pairwise_append]
        refine ⟨hpw, List.pairwise_singleton _ _, ?_⟩
        intro a ha b hb
        rw [List.mem_singleton] at hb
        subst hb
        exact hnd a ha
    · -- a new suggestion is appended and the loop continues
      have hconf : judge_confidence (extract_title turn.content)
          (extract_content turn.content)
          (judge_type (extract_title turn.content)
            (extract_content turn.content)) = "HIGH" := by
        simpa [bne_iff_ne] using h4
      have hnd : ∀ item ∈ acc, title_similar (extract_title turn.content)
          item.title = false := by
        have := Bool.not_eq_true _ ▸ h5
        rw [is_duplicate, List.any_eq_false] at this
        intro item hitem
        simpa using this item hitem
      apply ih
      · simpa [List.length_append] using Nat.lt_of_not_le h6
      · intro s hs
        rcases List.mem_append.1 hs with hs | hs
        · exact hhigh s hs
        · rw [List.mem_singleton] at hs
          subst hs
          exact hconf
      · rw [List.pairwise_append]
        refine ⟨hpw, List.pairwise_singleton _ _, ?_⟩
        intro a ha b hb
        rw [List.mem_singleton] at hb
        subst hb
        exact hnd a ha

/-- C9 (amended): for every conversation log, extract_suggestions keeps only
HIGH-confidence candidates, caps the result at MAX_AUTO_SUGGESTIONS, and
discards within the batch any candidate whose title equals, or whose
common-character count divided by the LONGER TITLE LENGTH exceeds 0.7
against, an already-kept candidate's title (the code's measure, not
character-set Jaccard). -/
theorem C9_extraction_filtering (conversation_log : List Turn) :
    (extract_suggestions conversation_log).length ≤ MAX_AUTO_SUGGESTIONS ∧
    (∀ s ∈ extract_suggestions conversation_log, s.confidence = "HIGH") ∧
    List.Pairwise (fun a b => title_similar b.title a.title = false)
      (extract_suggestions conversation_log) :=
  extract_loop_invariant conversation_log [] (by decide)
    (by intro s hs; simp at hs) (List.Pairwise.nil)

end MCPMemory
